import Mathlib

/-!
# MEDAL batch-evaluation pipeline: a shallow embedding

This file embeds, in Lean, the data model and the operations of the MEDAL
repository's batch-evaluation pipeline and settles the specification's
claims about them:

* `src/scripts/evaluate.py` / `src/scripts/evaluate_openrouter.py` —
  per-item evaluation (`evaluate_one`), markdown-fence extraction, the
  checkpoint/resume filter, checkpoint deletion on completion, and the
  final accuracy summary;
* `src/scripts/batch_prepare.py` / `src/scripts/batch_parse_outputs.py` —
  custom-id encoding/decoding and the prediction/ground-truth merge;
* `src/archive/one_off/classification.py` — the retry loop
  (`get_response_async`) and its caller (`process_article`);
* `src/medal/clients.py` — the semaphore-bounded request executor,
  modelled as a labelled transition system.

Python values flowing through these scripts are dynamic JSON-shaped data;
they are embedded as the inductive type `Json` below.  Python `str` is
embedded as `List Char` where the code manipulates it character-wise
(regex search, splitting) and as Lean `String` where it is only used as a
dictionary key.  Fallible Python expressions (attribute errors, key
errors, raised exceptions) are embedded as `Except PyErr`.
-/

namespace Medal

/-- Embedded JSON values (the dynamic values the Python scripts pass
around).  Object fields keep their source order; duplicate keys are
resolved last-wins, as Python's `json.loads` does. -/
inductive Json where
  | null : Json
  | bool : Bool → Json
  | num : Int → Json
  | str : String → Json
  | arr : List Json → Json
  | obj : List (String × Json) → Json
deriving Repr

mutual

/-- Structural equality on embedded JSON values (Python `==` on the data
the scripts compare). -/
def Json.beq : Json → Json → Bool
  | Json.null, Json.null => true
  | Json.bool a, Json.bool b => a = b
  | Json.num a, Json.num b => a = b
  | Json.str a, Json.str b => a = b
  | Json.arr a, Json.arr b => Json.beqList a b
  | Json.obj a, Json.obj b => Json.beqObj a b
  | _, _ => false

/-- Pointwise equality of JSON arrays. -/
def Json.beqList : List Json → List Json → Bool
  | [], [] => true
  | a :: as', b :: bs' => Json.beq a b && Json.beqList as' bs'
  | _, _ => false

/-- Pointwise equality of JSON object field lists. -/
def Json.beqObj : List (String × Json) → List (String × Json) → Bool
  | [], [] => true
  | (ka, va) :: as', (kb, vb) :: bs' =>
    ka = kb && Json.beq va vb && Json.beqObj as' bs'
  | _, _ => false

end

instance : BEq Json := ⟨Json.beq⟩

/-- The Python exceptions the embedded code can raise. -/
inductive PyErr where
  | attributeError : PyErr
  | keyError : PyErr
  | typeError : PyErr
  | indexError : PyErr
deriving DecidableEq, Repr

/-- Last-wins association lookup: the value of the *last* binding of `key`,
matching Python `dict` semantics when an object literal repeats a key. -/
def objLookup {α : Type} : List (String × α) → String → Option α
  | [], _ => none
  | (k, v) :: rest, key =>
    match objLookup rest key with
    | some w => some w
    | none => if k = key then some v else none

/-- Python `d.get(key, dflt)` on an embedded object's field list. -/
def getD (kvs : List (String × Json)) (key : String) (dflt : Json) : Json :=
  (objLookup kvs key).getD dflt

/-- Python `key in d` on an embedded object's field list. -/
def hasKey (kvs : List (String × Json)) (key : String) : Bool :=
  (objLookup kvs key).isSome

/-- Python truthiness of an embedded JSON value. -/
def jsonTruthy : Json → Bool
  | Json.null => false
  | Json.bool b => b
  | Json.num n => n ≠ 0
  | Json.str s => ¬ s.isEmpty
  | Json.arr xs => ¬ xs.isEmpty
  | Json.obj kvs => ¬ kvs.isEmpty

/-- Python `a or b` on embedded values (returns `a` when truthy, else `b`). -/
def pyOrJ (a b : Json) : Json :=
  if jsonTruthy a then a else b

/-- Python `str(v)` for the scalar values the scripts format.  Containers
get a fixed placeholder: the claims never format a container, and the
scripts only interpolate scalars (status codes, ids). -/
def pyStr : Json → String
  | Json.null => "None"
  | Json.bool true => "True"
  | Json.bool false => "False"
  | Json.num n => toString n
  | Json.str s => s
  | Json.arr _ => "<list>"
  | Json.obj _ => "<dict>"

/-! ## A model of `json.loads`

The scripts parse provider output with Python's `json.loads`, an external
library routine.  The model below parses the JSON fragment the pipeline
exercises (null / booleans / integers / escape-free strings / arrays /
objects, with whitespace); like `json.loads`, it accepts a value only when
the whole input is consumed, and it fails (returns `none`, the embedded
`json.JSONDecodeError`) on anything else. -/

/-- JSON insignificant whitespace. -/
def isJsonWs (c : Char) : Bool :=
  c = ' ' ∨ c = '\t' ∨ c = '\n' ∨ c = '\r'

/-- Drop leading JSON whitespace. -/
def wsDrop (s : List Char) : List Char :=
  s.dropWhile isJsonWs

/-- Parse the remainder of a JSON string after the opening quote.  Escape
sequences are outside the modelled fragment and fail the parse. -/
def parseStrRest : List Char → Option (String × List Char)
  | [] => none
  | c :: rest =>
    if c = '"' then some ("", rest)
    else if c = '\\' then none
    else
      match parseStrRest rest with
      | some (s, r) => some (⟨c :: s.data⟩, r)
      | none => none

/-- Consume leading decimal digits, returning their value and the rest. -/
def parseDigits (acc : Nat) : List Char → Nat × List Char
  | [] => (acc, [])
  | c :: rest =>
    if c.isDigit then parseDigits (acc * 10 + (c.toNat - '0'.toNat)) rest
    else (acc, c :: rest)

/-- Parse an integer literal (optional leading minus). -/
def parseNum : List Char → Option (Json × List Char)
  | [] => none
  | c :: rest =>
    if c = '-' then
      match rest with
      | d :: _ =>
        if d.isDigit then
          let (n, r) := parseDigits 0 rest
          some (Json.num (-(n : Int)), r)
        else none
      | [] => none
    else if c.isDigit then
      let (n, r) := parseDigits 0 (c :: rest)
      some (Json.num (n : Int), r)
    else none

mutual

/-- Parse one JSON value (fuel-indexed to make the recursion structural). -/
def parseVal : Nat → List Char → Option (Json × List Char)
  | 0, _ => none
  | fuel + 1, s =>
    match wsDrop s with
    | 'n' :: 'u' :: 'l' :: 'l' :: rest => some (Json.null, rest)
    | 't' :: 'r' :: 'u' :: 'e' :: rest => some (Json.bool true, rest)
    | 'f' :: 'a' :: 'l' :: 's' :: 'e' :: rest => some (Json.bool false, rest)
    | '"' :: rest =>
      match parseStrRest rest with
      | some (str, r) => some (Json.str str, r)
      | none => none
    | '[' :: rest => parseArrTail fuel (wsDrop rest)
    | '{' :: rest => parseObjTail fuel (wsDrop rest)
    | s' => parseNum s'

/-- Parse array elements after `[` (whitespace already dropped). -/
def parseArrTail : Nat → List Char → Option (Json × List Char)
  | 0, _ => none
  | fuel + 1, s =>
    match s with
    | ']' :: rest => some (Json.arr [], rest)
    | _ =>
      match parseVal fuel s with
      | some (v, r) =>
        match wsDrop r with
        | ',' :: r2 =>
          match parseArrTail fuel (wsDrop r2) with
          | some (Json.arr vs, r3) => some (Json.arr (v :: vs), r3)
          | _ => none
        | ']' :: r2 => some (Json.arr [v], r2)
        | _ => none
      | none => none

/-- Parse object members after `{` (whitespace already dropped). -/
def parseObjTail : Nat → List Char → Option (Json × List Char)
  | 0, _ => none
  | fuel + 1, s =>
    match s with
    | '}' :: rest => some (Json.obj [], rest)
    | '"' :: rest =>
      match parseStrRest rest with
      | some (key, r1) =>
        match wsDrop r1 with
        | ':' :: r2 =>
          match parseVal fuel r2 with
          | some (v, r3) =>
            match wsDrop r3 with
            | ',' :: r4 =>
              match parseObjTail fuel (wsDrop r4) with
              | some (Json.obj kvs, r5) => some (Json.obj ((key, v) :: kvs), r5)
              | _ => none
            | '}' :: r4 => some (Json.obj [(key, v)], r4)
            | _ => none
          | none => none
        | _ => none
      | none => none
    | _ => none

end

/-- Model of Python `json.loads` on the modelled JSON fragment: parse one
value and require only whitespace to remain. -/
def jsonLoads (s : List Char) : Option Json :=
  match parseVal (2 * s.length + 2) s with
  | some (v, rest) => if (wsDrop rest).isEmpty then some v else none
  | none => none

/-! ## Markdown-fence extraction (`evaluate_openrouter.py`, lines 58-69)

`bounded_json_chat_completion` post-processes the provider text: when it
contains a code fence it extracts the first brace-delimited group matched
by `re.search(r'```json\s*(\x7b.*?\x7d)\s*```', content, re.DOTALL)`
(resp. the variant without `json`).  The functions below implement that
regex's leftmost-then-shortest match semantics directly. -/

/-- Python `\s` (the whitespace class of `re`). -/
def isPyWs (c : Char) : Bool :=
  c = ' ' ∨ c = '\t' ∨ c = '\n' ∨ c = '\r' ∨ c = '\x0b' ∨ c = '\x0c'

/-- Drop leading Python-regex whitespace. -/
def pyWsDrop (s : List Char) : List Char :=
  s.dropWhile isPyWs

/-- Python `needle in haystack` (substring containment). -/
def containsSub (needle : List Char) : List Char → Bool
  | [] => needle.isEmpty
  | s@(_ :: tl) => needle.isPrefixOf s || containsSub needle tl

/-- The lazy group `(\x7b.*?\x7d)` of the fence regex: `revAcc` holds the
group read so far (reversed, starting from the `\x7b`); the group closes at
the first `\x7d` that is followed by `\s*` and three backticks, exactly the
order a backtracking lazy quantifier tries endpoints. -/
def findGroup (revAcc : List Char) : List Char → Option (List Char)
  | [] => none
  | c :: cs =>
    if c = '}' ∧ ("```".data.isPrefixOf (pyWsDrop cs)) then
      some (revAcc.reverse ++ ['}'])
    else findGroup (c :: revAcc) cs

/-- `re.search` of `lit ++ \s*(\x7b.*?\x7d)\s*` ++ three backticks over the
text: try each start position left to right; at a position where the fence
literal matches, skip whitespace, require `\x7b` and close the group at the
earliest admissible `\x7d`; otherwise resume at the next position. -/
def reSearchFence (lit : List Char) : List Char → Option (List Char)
  | [] => none
  | s@(_ :: tl) =>
    if lit.isPrefixOf s then
      match
        (match pyWsDrop (s.drop lit.length) with
         | '{' :: body => findGroup ['{'] body
         | _ => none) with
      | some g => some g
      | none => reSearchFence lit tl
    else reSearchFence lit tl

/-- Lines 60-69 of `evaluate_openrouter.py`: replace the content by the
fenced JSON object when the fence regex matches, else keep it whole. -/
def strip_fences (content : List Char) : List Char :=
  if containsSub "```json".data content then
    match reSearchFence "```json".data content with
    | some g => g
    | none => content
  else if containsSub "```".data content then
    match reSearchFence "```".data content with
    | some g => g
    | none => content
  else content

/-! ## Batch custom-id encoding (`batch_prepare.py` line 82,
`batch_parse_outputs.py` lines 32-36) -/

/-- After the first `sep`, the remainder of the string:
Python `s.split(sep, 1)[1]`. -/
def split1Rest (sep : Char) : List Char → Option (List Char)
  | [] => none
  | c :: cs => if c = sep then some cs else split1Rest sep cs

/-- `batch_parse_outputs.parse_custom_id`: strings starting with `qid:`
lose the prefix up to the first colon, anything else passes through.  (The
`getD` fallback is unreachable under the prefix guard, which guarantees a
colon; Python would raise `IndexError` there.) -/
def parse_custom_id (custom_id : List Char) : List Char :=
  if "qid:".data.isPrefixOf custom_id then
    (split1Rest ':' custom_id).getD custom_id
  else custom_id

/-- `batch_prepare.py` line 82: `custom_id = f"qid:\x7bidentifier\x7d"`. -/
def custom_id_of (identifier : List Char) : List Char :=
  "qid:".data ++ identifier

/-! ## Per-item evaluation (`evaluate.py` lines 43-69,
`evaluate_openrouter.py` lines 132-164)

`evaluate_one` builds a prompt from `item["question"]`, calls the bounded
client, parses the reply with `json.loads` inside a `try`, substitutes the
`ERROR` dictionary on any exception, and then — outside the `try` — builds
the result record with `resp.get`/`item.get`.  The request's result is
passed in as `Except String (List Char)`: `.ok raw` is the provider text,
`.error e` a raised request exception (message `e`). -/

/-- The per-item result record written by `evaluate_one` (the inner value
of `\x7bidx: \x7b...\x7d\x7d`); fields hold dynamic values exactly as the
Python dict does. -/
structure EvalRecord where
  doi : Json
  question : Json
  model_answer : Json
  model_eq : Json
  model_disc : Json
  model_notes : Json
  gt_answer : Json
  gt_eq : Json
  gt_disc : Json
deriving Repr

/-- The `except` branch of `evaluate_one` (lines 49-56 of `evaluate.py`):
the substituted response dictionary, fields as in the source. -/
def errKvs (qj : Json) (msg : String) : List (String × Json) :=
  [("question", qj), ("answer", Json.str "ERROR"),
   ("evidence-quality", Json.str "ERROR"), ("discrepancy", Json.str "ERROR"),
   ("notes", Json.str msg)]

/-- The `resp` value after the `try`/`except` of `evaluate.py` (no fence
stripping: `medal/clients.py` returns the chat content verbatim). -/
def respOf (qj : Json) (req : Except String (List Char)) : Json :=
  match req with
  | Except.error e => Json.obj (errKvs qj e)
  | Except.ok content =>
    match jsonLoads content with
    | some v => v
    | none => Json.obj (errKvs qj "json_decode_error")

/-- The `resp` value in `evaluate_openrouter.py`: its client strips
markdown fences from the content before `json.loads`. -/
def respOfOr (qj : Json) (req : Except String (List Char)) : Json :=
  match req with
  | Except.error e => Json.obj (errKvs qj e)
  | Except.ok content =>
    match jsonLoads (strip_fences content) with
    | some v => v
    | none => Json.obj (errKvs qj "json_decode_error")

/-- The record literal of `evaluate_one` (lines 57-69 of `evaluate.py`), on
an `item` and a `resp` both known to be dictionaries. -/
def recordOf (ikvs : List (String × Json)) (qj : Json)
    (rkvs : List (String × Json)) : EvalRecord :=
  { doi := getD ikvs "doi" (Json.str "")
  , question := qj
  , model_answer := getD rkvs "answer" (Json.str "")
  , model_eq := getD rkvs "evidence-quality" (Json.str "")
  , model_disc := getD rkvs "discrepancy" (Json.str "")
  , model_notes := getD rkvs "notes" (Json.str "")
  , gt_answer := getD ikvs "answer" (Json.str "")
  , gt_eq := getD ikvs "evidence-quality" (Json.str "")
  , gt_disc := getD ikvs "discrepancy" (Json.str "") }

/-- `evaluate.py` `evaluate_one`: `item["question"]` raises outside any
`try` (`typeError`/`keyError`); the request/parse errors are absorbed into
the `ERROR` response; `resp.get` on a non-dictionary parse result raises
`AttributeError`, also outside the `try`. -/
def evaluate_one (item : Json) (req : Except String (List Char)) :
    Except PyErr EvalRecord :=
  match item with
  | Json.obj ikvs =>
    match objLookup ikvs "question" with
    | none => Except.error PyErr.keyError
    | some qj =>
      match respOf qj req with
      | Json.obj rkvs => Except.ok (recordOf ikvs qj rkvs)
      | _ => Except.error PyErr.attributeError
  | _ => Except.error PyErr.typeError

/-- `evaluate_openrouter.py` `evaluate_one`: identical shape, but the
content passed to `json.loads` went through `strip_fences`. -/
def evaluate_one_or (item : Json) (req : Except String (List Char)) :
    Except PyErr EvalRecord :=
  match item with
  | Json.obj ikvs =>
    match objLookup ikvs "question" with
    | none => Except.error PyErr.keyError
    | some qj =>
      match respOfOr qj req with
      | Json.obj rkvs => Except.ok (recordOf ikvs qj rkvs)
      | _ => Except.error PyErr.attributeError
  | _ => Except.error PyErr.typeError

/-! ## Final accuracy summary (`evaluate_openrouter.py` lines 202-213) -/

/-- One iteration of the summary loop: on `model_answer != "ERROR"` bump
`total` and, when the answers agree, `correct`. -/
def accuracy_step (ct : Nat × Nat) (r : EvalRecord) : Nat × Nat :=
  if (r.model_answer == Json.str "ERROR") = false then
    ((if r.model_answer == r.gt_answer then ct.1 + 1 else ct.1), ct.2 + 1)
  else ct

/-- The summary loop over `out.values()`: `total` counts records whose
`model_answer` differs from `"ERROR"`, `correct` counts those that also
equal the ground-truth answer.  Result is `(correct, total)`. -/
def accuracy_counts (outs : List EvalRecord) : Nat × Nat :=
  outs.foldl accuracy_step (0, 0)

/-- A determinate answer in the sense of the spec: a member of the closed
set Yes / No / No Evidence. -/
def determinate (v : Json) : Bool :=
  v == Json.str "Yes" || v == Json.str "No" || v == Json.str "No Evidence"

/-- Follows the spec's words (for comparison with `accuracy_counts`):
"accuracy ... is computed only over items where both the model answer and
the ground-truth answer are determinate: the denominator counts exactly
those determinate comparisons, and the numerator counts those among them
where the two answers are equal". -/
def spec_determinate_counts (outs : List EvalRecord) : Nat × Nat :=
  ((outs.filter (fun r =>
      determinate r.model_answer && determinate r.gt_answer
        && r.model_answer == r.gt_answer)).length,
   (outs.filter (fun r =>
      determinate r.model_answer && determinate r.gt_answer)).length)

/-! ## `analyze_errors.py` accuracy (lines 84-110 and 186-191)

The error-analysis script counts `total` for every parsed merged row and
`correct` only when both normalized answers lie in `YES_NO_NOE` and agree;
`summary.json` reports `accuracy_answer = correct / total`. -/

/-- `analyze_errors.normalize`: `None` stays `None`, anything else becomes
`str(s).strip()`. -/
def normalizeField (v : Json) : Option String :=
  match v with
  | Json.null => none
  | v => some ⟨((pyStr v).data.dropWhile isPyWs).reverse.dropWhile isPyWs |>.reverse⟩

/-- The closed answer set of `analyze_errors.py`. -/
def YES_NO_NOE : List String := ["Yes", "No", "No Evidence"]

/-- One row of `analyze_errors.main`'s loop: `total` always advances,
`correct` only when both normalized answers are in the closed set and
agree. -/
def analyze_step (ct : Nat × Nat) (row : List (String × Json)) : Nat × Nat :=
  let gt := normalizeField (getD row "ground_truth_answer" Json.null)
  let pd := normalizeField (getD row "model_answer" Json.null)
  let correct' :=
    match gt, pd with
    | some g, some p =>
      if YES_NO_NOE.contains g ∧ YES_NO_NOE.contains p ∧ g = p then
        ct.1 + 1
      else ct.1
    | _, _ => ct.1
  (correct', ct.2 + 1)

/-- The `(correct, total)` counters of `analyze_errors.main`'s row loop,
restricted to the answer fields they read. -/
def analyze_accuracy (rows : List (List (String × Json))) : Nat × Nat :=
  rows.foldl analyze_step (0, 0)

/-! ## Checkpoint load and resume filter (`evaluate_openrouter.py`
lines 115-130)

`main` derives the checkpoint path from the output path, loads it when it
exists (`out = json.load(...)`, `completed_indices = set(out.keys())`),
and submits only `[(idx, item) for idx, item in records if idx not in
completed_indices]`. -/

/-- `completed_indices` as a function of the loaded checkpoint contents
(`none` embeds a missing checkpoint file). -/
def completedIndicesOf (ckpt : Option (List (String × Json))) : List String :=
  match ckpt with
  | none => []
  | some out => out.map Prod.fst

/-- Line 129: the list comprehension filtering out completed indices. -/
def recordsToProcess (records : List (String × Json))
    (completed : List String) : List (String × Json) :=
  records.filter (fun r => !(completed.contains r.1))

/-! ## Final write and checkpoint removal (`evaluate_openrouter.py`
lines 191-198)

After the batch drains, `main` writes the final results file and then
unlinks the checkpoint file if it exists.  The directory tree is embedded
as an association list from path to contents. -/

/-- `path.exists()` on the embedded file system. -/
def fsExists (fs : List (String × String)) (p : String) : Bool :=
  fs.any (fun e => e.1 == p)

/-- `open(p, "w")` + write: overwrite or create `p`. -/
def fsWrite (fs : List (String × String)) (p v : String) :
    List (String × String) :=
  (p, v) :: fs.filter (fun e => !(e.1 == p))

/-- `path.unlink()`: remove `p`. -/
def fsUnlink (fs : List (String × String)) (p : String) :
    List (String × String) :=
  fs.filter (fun e => !(e.1 == p))

/-- Lines 191-198: write the final results to `outPath`, then delete
`ckptPath` when present. -/
def finalizeOutputs (fs : List (String × String)) (outPath ckptPath : String)
    (results : String) : List (String × String) :=
  let fs1 := fsWrite fs outPath results
  if fsExists fs1 ckptPath then fsUnlink fs1 ckptPath else fs1

/-- Lines 118-126 as a function of the file system: the resume state of a
run, `(out, completed_indices)`, is parsed from the checkpoint file when it
exists and empty otherwise.  `parse` stands for `json.load` on the file's
contents. -/
def loadCheckpointState (fs : List (String × String)) (ckptPath : String)
    (parse : String → List (String × Json)) : List (String × Json) :=
  match fs.find? (fun e => e.1 == ckptPath) with
  | some e => parse e.2
  | none => []

/-! ## Retry loop (`classification.py` lines 16-34) and its caller
(lines 94-100)

`get_response_async` runs `for attempt in range(max_retries)`: a
successful call returns its content; a failed attempt sleeps 10 s and
continues while `attempt < max_retries - 1`, and on the last attempt
re-raises the exception.  Falling out of the loop (only possible when
`max_retries == 0`) returns `None`.  Attempt outcomes are passed in as
`att : Nat → Except String (List Char)`. -/

/-- How a Python call can leave `get_response_async`. -/
inductive PyOutcome (α : Type) where
  | returned : α → PyOutcome α
  | raised : String → PyOutcome α
  | noneReturned : PyOutcome α
deriving Repr, DecidableEq

/-- The loop body from loop index `i` with `remaining` iterations left
(`i + remaining = max_retries` at every call).  Also returns the number of
attempts performed and of 10-second backoff sleeps taken. -/
def retryFrom (att : Nat → Except String (List Char)) (maxR : Nat) :
    Nat → Nat → PyOutcome (List Char) × Nat × Nat
  | _, 0 => (PyOutcome.noneReturned, 0, 0)
  | i, r + 1 =>
    match att i with
    | Except.ok s => (PyOutcome.returned s, 1, 0)
    | Except.error e =>
      if i < maxR - 1 then
        let (o, a, sl) := retryFrom att maxR (i + 1) r
        (o, a + 1, sl + 1)
      else (PyOutcome.raised e, 1, 0)

/-- `get_response_async` (the semaphore wrapper is modelled separately as
the executor transition system): outcome, attempts made, sleeps taken. -/
def get_response_async (att : Nat → Except String (List Char))
    (maxR : Nat) : PyOutcome (List Char) × Nat × Nat :=
  retryFrom att maxR 0 maxR

/-- `process_article` (lines 94-100): `json.loads` the returned content
and hand the parsed value back; any exception — including one raised out
of `get_response_async` — is caught and turned into `None`. -/
def process_article (att : Nat → Except String (List Char)) (maxR : Nat) :
    Option Json :=
  match (get_response_async att maxR).1 with
  | PyOutcome.returned s =>
    match jsonLoads s with
    | some v => some v
    | none => none
  | PyOutcome.raised _ => none
  | PyOutcome.noneReturned => none

/-! ## Bounded request executor (`medal/clients.py` lines 11-19,
`evaluate_openrouter.py` lines 39-57)

Every outbound request in `bounded_json_chat_completion` is performed
inside `async with semaphore:` on the one `asyncio.Semaphore(N)` shared by
the batch.  The executor is embedded as a transition system: each task is
`pending` (not yet past the `async with`), `inFlight` (holding a slot,
request outstanding) or `done` (slot released); the semaphore is the
counter `sem`, decremented by an acquire — enabled only when positive —
and incremented by a release. -/

/-- Where a task stands relative to `async with semaphore`. -/
inductive Phase where
  | pending : Phase
  | inFlight : Phase
  | done : Phase
deriving DecidableEq, Repr

/-- Executor state: the semaphore counter and each task's phase. -/
structure ExecState where
  sem : Nat
  tasks : List Phase
deriving Repr

/-- The number of requests currently in flight. -/
def cntInFlight : List Phase → Nat
  | [] => 0
  | p :: ps => (if p = Phase.inFlight then 1 else 0) + cntInFlight ps

/-- Replace the phase of task `i` (out-of-range indices change nothing). -/
def setPhase : List Phase → Nat → Phase → List Phase
  | [], _, _ => []
  | _ :: ps, 0, q => q :: ps
  | p :: ps, n + 1, q => p :: setPhase ps n q

/-- One scheduler step of the batch: a pending task passes the
`async with semaphore` (its `acquire`, enabled only while the counter is
positive) and issues its request, or an in-flight task's request completes
and the `async with` block exits (its `release`). -/
inductive ExecStep : ExecState → ExecState → Prop where
  | acquire (s : ExecState) (i : Nat)
      (hp : s.tasks.get? i = some Phase.pending) (hs : 0 < s.sem) :
      ExecStep s ⟨s.sem - 1, setPhase s.tasks i Phase.inFlight⟩
  | release (s : ExecState) (i : Nat)
      (hp : s.tasks.get? i = some Phase.inFlight) :
      ExecStep s ⟨s.sem + 1, setPhase s.tasks i Phase.done⟩

/-- The batch's initial state: `asyncio.Semaphore(N)` and `n` tasks, none
yet past the `async with`. -/
def initExec (N n : Nat) : ExecState :=
  ⟨N, List.replicate n Phase.pending⟩

/-- States the batch can reach from its start. -/
def ExecReachable (N n : Nat) (s : ExecState) : Prop :=
  Relation.ReflTransGen ExecStep (initExec N n) s

/-! ## Batch output parsing and merge (`batch_parse_outputs.py`)

`main` reads the ground-truth JSONL into two maps (`by_id`, `by_doi`),
then for each parseable batch-result line builds one prediction record
and — only when a ground-truth entry is found for its key — one merged
record.  Result lines and ground-truth items are embedded as parsed
objects (field lists); blank or unparseable lines are skipped by the
source before this logic runs. -/

/-- One prediction record (the `pred` dict of lines 81-90). -/
structure Pred where
  key : String
  custom_id : Json
  status : Json
  error : Json
  model_answer : Json
  model_eq : Json
  model_disc : Json
  model_notes : Json
deriving Repr

/-- `load_ground_truth_map` (lines 13-29): index items by `str(item["id"])`
and by `str(item["doi"])` when those fields are present and truthy;
repeated keys overwrite (last-wins lookup over an append list). -/
def load_ground_truth_map (items : List (List (String × Json))) :
    List (String × List (String × Json)) ×
      List (String × List (String × Json)) :=
  items.foldl
    (fun maps item =>
      let m1 :=
        if hasKey item "id" ∧ jsonTruthy (getD item "id" Json.null) then
          maps.1 ++ [(pyStr (getD item "id" Json.null), item)]
        else maps.1
      let m2 :=
        if hasKey item "doi" ∧ jsonTruthy (getD item "doi" Json.null) then
          maps.2 ++ [(pyStr (getD item "doi" Json.null), item)]
        else maps.2
      (m1, m2))
    ([], [])

/-- `extract_message_json` (lines 39-44): `json.loads` the content, and on
any failure — including a non-string argument — wrap it as
`\x7b"raw": content\x7d`. -/
def extract_message_json (content_text : Json) : Json :=
  match content_text with
  | Json.str s =>
    match jsonLoads s.data with
    | some v => v
    | none => Json.obj [("raw", content_text)]
  | _ => Json.obj [("raw", content_text)]

/-- The chat-completions extraction (line 113):
`body.get("choices", [\x7b\x7d])[0].get("message", \x7b\x7d).get("content", "")`.
Any non-conforming shape raises (all such raises are caught by the
enclosing `try` and become `parse_error`). -/
def chatShape (bkvs : List (String × Json)) : Except PyErr Json :=
  match getD bkvs "choices" (Json.arr [Json.obj []]) with
  | Json.arr cs =>
    match cs with
    | [] => Except.error PyErr.indexError
    | c0 :: _ =>
      match c0 with
      | Json.obj ckvs =>
        match getD ckvs "message" (Json.obj []) with
        | Json.obj mkvs => Except.ok (getD mkvs "content" (Json.str ""))
        | _ => Except.error PyErr.attributeError
      | _ => Except.error PyErr.attributeError
  | _ => Except.error PyErr.typeError

/-- Inner loop of the responses-API extraction (lines 106-109): for each
content entry `c` holding a `"text"` field, append `t.get("value")` when
`t` is a dict and `str(t)` otherwise. -/
def partsOfContent : List Json → Except PyErr (List Json)
  | [] => Except.ok []
  | c :: rest =>
    match c with
    | Json.obj ckvs =>
      match partsOfContent rest with
      | Except.error e => Except.error e
      | Except.ok ps =>
        if hasKey ckvs "text" then
          let t := getD ckvs "text" Json.null
          let p :=
            match t with
            | Json.obj tkvs => getD tkvs "value" Json.null
            | _ => Json.str (pyStr t)
          Except.ok (p :: ps)
        else Except.ok ps
    | _ => Except.error PyErr.typeError

/-- Outer loop of the responses-API extraction (lines 105-109). -/
def collectParts : List Json → Except PyErr (List Json)
  | [] => Except.ok []
  | it :: rest =>
    match it with
    | Json.obj itkvs =>
      match getD itkvs "content" (Json.arr []) with
      | Json.arr cs =>
        match partsOfContent cs with
        | Except.error e => Except.error e
        | Except.ok ps =>
          match collectParts rest with
          | Except.error e => Except.error e
          | Except.ok rs => Except.ok (ps ++ rs)
      | _ => Except.error PyErr.typeError
    | _ => Except.error PyErr.attributeError

/-- `"\n".join(parts)`: every part must be a string, else `TypeError`. -/
def joinParts : List Json → Except PyErr (List String)
  | [] => Except.ok []
  | Json.str s :: rest =>
    match joinParts rest with
    | Except.ok ss => Except.ok (s :: ss)
    | Except.error e => Except.error e
  | _ :: _ => Except.error PyErr.typeError

/-- The responses-API shape (lines 103-110). -/
def responsesShape (bkvs : List (String × Json)) : Except PyErr Json :=
  match pyOrJ (getD bkvs "output" Json.null)
      (pyOrJ (getD bkvs "content" Json.null) (Json.arr [])) with
  | Json.arr items =>
    match collectParts items with
    | Except.error e => Except.error e
    | Except.ok parts =>
      match joinParts parts with
      | Except.error e => Except.error e
      | Except.ok ss => Except.ok (Json.str (String.intercalate "\n" ss))
  | _ => Except.error PyErr.typeError

/-- Lines 100-113: pick the responses-API shape when
`obj.get("url") == "/v1/responses"` or `body.get("id", "")` starts with
`resp_`, else the chat shape; a non-dict body raises. -/
def extractContent (obj_kvs : List (String × Json)) (body : Json) :
    Except PyErr Json :=
  match body with
  | Json.obj bkvs =>
    if getD obj_kvs "url" Json.null == Json.str "/v1/responses" then
      responsesShape bkvs
    else
      match getD bkvs "id" (Json.str "") with
      | Json.str ids =>
        if "resp_".data.isPrefixOf ids.data then responsesShape bkvs
        else chatShape bkvs
      | _ => Except.error PyErr.attributeError
  | _ => Except.error PyErr.attributeError

/-- One iteration of the result loop (lines 77-123), producing the `pred`
record.  Uncaught raises (`resp.get('status_code')` on a non-dict
`response`, a non-string `custom_id` fed to `parse_custom_id`) surface as
`Except.error` and would abort `main`; raises inside the `try` of lines
99-120 are absorbed into `error = "parse_error"` with the model fields
left `None`. -/
def predOfLine (obj_kvs : List (String × Json)) : Except PyErr Pred :=
  let cid := pyOrJ (getD obj_kvs "custom_id" Json.null)
    (pyOrJ (getD obj_kvs "id" Json.null) (Json.str ""))
  match cid with
  | Json.str cs =>
    let key : String := ⟨parse_custom_id cs.data⟩
    if hasKey obj_kvs "error" ∧ jsonTruthy (getD obj_kvs "error" Json.null) then
      Except.ok
        { key, custom_id := cid, status := Json.str "error"
        , error := getD obj_kvs "error" Json.null
        , model_answer := Json.null, model_eq := Json.null
        , model_disc := Json.null, model_notes := Json.null }
    else
      match getD obj_kvs "response" (Json.obj []) with
      | Json.obj rkvs =>
        let status := Json.str (pyStr (getD rkvs "status_code" Json.null))
        let body := getD rkvs "body" (Json.obj [])
        match extractContent obj_kvs body with
        | Except.ok content_text =>
          let data :=
            if jsonTruthy content_text then extract_message_json content_text
            else Json.obj []
          match data with
          | Json.obj dkvs =>
            Except.ok
              { key, custom_id := cid, status, error := Json.null
              , model_answer := getD dkvs "answer" Json.null
              , model_eq := getD dkvs "evidence-quality" Json.null
              , model_disc := getD dkvs "discrepancy" Json.null
              , model_notes := getD dkvs "notes" Json.null }
          | _ =>
            Except.ok
              { key, custom_id := cid, status
              , error := Json.str "parse_error"
              , model_answer := Json.null, model_eq := Json.null
              , model_disc := Json.null, model_notes := Json.null }
        | Except.error _ =>
          Except.ok
            { key, custom_id := cid, status
            , error := Json.str "parse_error"
            , model_answer := Json.null, model_eq := Json.null
            , model_disc := Json.null, model_notes := Json.null }
      | _ => Except.error PyErr.attributeError
  | _ => Except.error PyErr.attributeError

/-- One merged record (lines 128-142). -/
structure Merged where
  id : Json
  doi : Json
  question : Json
  gt_answer : Json
  gt_eq : Json
  gt_disc : Json
  model_answer : Json
  model_eq : Json
  model_disc : Json
  model_notes : Json
  status : Json
  custom_id : Json
  error : Json
deriving Repr

/-- Line 126: `gt = by_id.get(key) or by_doi.get(key)` — Python `or`, so
a found-but-empty dict also falls through to the DOI map. -/
def gtFor (by_id by_doi : List (String × List (String × Json)))
    (key : String) : Option (List (String × Json)) :=
  let a := objLookup by_id key
  let b := objLookup by_doi key
  match a with
  | some g => if g.isEmpty then b else a
  | none => b

/-- Lines 126-143: emit a merged record only when `gt` is truthy. -/
def mergeFor (by_id by_doi : List (String × List (String × Json)))
    (p : Pred) : Option Merged :=
  match gtFor by_id by_doi p.key with
  | none => none
  | some gkvs =>
    if gkvs.isEmpty then none
    else
      some
        { id := getD gkvs "id" Json.null, doi := getD gkvs "doi" Json.null
        , question := getD gkvs "question" Json.null
        , gt_answer := getD gkvs "answer" Json.null
        , gt_eq := getD gkvs "evidence-quality" Json.null
        , gt_disc := getD gkvs "discrepancy" Json.null
        , model_answer := p.model_answer, model_eq := p.model_eq
        , model_disc := p.model_disc, model_notes := p.model_notes
        , status := p.status, custom_id := p.custom_id, error := p.error }

/-- The result loop of `main` over the parseable result lines: collect the
prediction records and the merged records in order. -/
def batch_parse_outputs (by_id by_doi : List (String × List (String × Json))) :
    List (List (String × Json)) → Except PyErr (List Pred × List Merged)
  | [] => Except.ok ([], [])
  | o :: rest =>
    match predOfLine o with
    | Except.error e => Except.error e
    | Except.ok p =>
      match batch_parse_outputs by_id by_doi rest with
      | Except.error e => Except.error e
      | Except.ok (ps, ms) =>
        Except.ok (p :: ps,
          match mergeFor by_id by_doi p with
          | some m => m :: ms
          | none => ms)

/-! ## Theorems -/

/-- Unlinking a path removes it from the embedded file system. -/
lemma fsExists_fsUnlink (fs : List (String × String)) (p : String) :
    fsExists (fsUnlink fs p) p = false := by
  induction fs with
  | nil => rfl
  | cons e rest ih =>
    by_cases h : (e.1 == p) = true
    · simpa [fsUnlink, List.filter_cons, h] using ih
    · rw [Bool.not_eq_true] at h
      simp [fsUnlink, fsExists, List.filter_cons, List.any_cons, h]

/-- A path absent from the file system is not found by `find?`. -/
lemma fsExists_false_find (fs : List (String × String)) (p : String)
    (h : fsExists fs p = false) :
    fs.find? (fun e => e.1 == p) = none := by
  induction fs with
  | nil => rfl
  | cons e rest ih =>
    simp only [fsExists, List.any_cons, Bool.or_eq_false_iff] at h
    simp [List.find?, h.1, ih h.2]

/-- C9.  Round-trip of the batch custom-id encoding: `parse_custom_id`
recovers every identifier that `batch_prepare.py` encodes as
`qid:<identifier>` (even identifiers containing colons), and any string
not starting with `qid:` passes through unchanged. -/
theorem c9_custom_id_roundtrip :
    (∀ identifier : List Char,
      parse_custom_id (custom_id_of identifier) = identifier) ∧
    (∀ s : List Char, "qid:".data.isPrefixOf s = false →
      parse_custom_id s = s) := by
  constructor
  · intro identifier
    have hpre : "qid:".data.isPrefixOf (custom_id_of identifier) = true := by
      simp [custom_id_of, List.isPrefixOf_iff_prefix]
    have hdata : "qid:".data = ['q', 'i', 'd', ':'] := rfl
    simp only [parse_custom_id, hpre, if_true]
    rw [custom_id_of, hdata]
    simp [split1Rest]
  · intro s h
    simp [parse_custom_id, h]

/-- Witness for C9 at concrete inputs. -/
theorem c9_witness :
    parse_custom_id (custom_id_of "10.1000/abc:7".data) = "10.1000/abc:7".data ∧
    parse_custom_id "plain-id".data = "plain-id".data :=
  ⟨c9_custom_id_roundtrip.1 "10.1000/abc:7".data,
   c9_custom_id_roundtrip.2 "plain-id".data (by decide)⟩

/-- C6.  On resume, `evaluate_openrouter.main` submits exactly the records
whose identifier is not among the loaded checkpoint's keys: membership in
`records_to_process` is membership in the input minus the checkpointed
identifiers, and the spec's 3-item example (checkpoint holding `a`)
submits exactly `b` and `c`. -/
theorem c6_resume_filter :
    (∀ (records : List (String × Json)) (ckpt : Option (List (String × Json)))
      (r : String × Json),
      r ∈ recordsToProcess records (completedIndicesOf ckpt) ↔
        r ∈ records ∧ r.1 ∉ completedIndicesOf ckpt) ∧
    recordsToProcess [("a", Json.null), ("b", Json.null), ("c", Json.null)]
        (completedIndicesOf (some [("a", Json.null)])) =
      [("b", Json.null), ("c", Json.null)] := by
  constructor
  · intro records ckpt r
    simp [recordsToProcess, List.mem_filter]
  · rfl

/-- C10.  After the final results write, `evaluate_openrouter.main`
unlinks the checkpoint file: in the resulting file system the checkpoint
path does not exist, so the checkpoint-loading step of a subsequent run
against the same output path yields the empty resume state. -/
theorem c10_checkpoint_deleted_on_completion :
    ∀ (fs : List (String × String)) (outPath ckptPath results : String),
      fsExists (finalizeOutputs fs outPath ckptPath results) ckptPath = false ∧
      ∀ parse : String → List (String × Json),
        loadCheckpointState (finalizeOutputs fs outPath ckptPath results)
          ckptPath parse = [] := by
  intro fs outPath ckptPath results
  have hnotin :
      fsExists (finalizeOutputs fs outPath ckptPath results) ckptPath = false := by
    unfold finalizeOutputs
    by_cases h : fsExists (fsWrite fs outPath results) ckptPath = true
    · simp only [h, if_true]
      exact fsExists_fsUnlink _ _
    · simp only [Bool.not_eq_true] at h
      simp [h]
  refine ⟨hnotin, fun parse => ?_⟩
  unfold loadCheckpointState
  rw [fsExists_false_find _ _ hnotin]

/-- C4, counterexample.  With `max_retries = 3` and every attempt failing,
`get_response_async` makes 3 attempts (not 3 retries after a first
attempt), sleeps twice, and leaves by *re-raising* the last exception
(`PyOutcome.raised`) — it does not return a terminal
`exhausted_retries`-style failure value to its caller, contradicting the
claim. -/
theorem c4_retry_counterexample :
    get_response_async (fun _ => Except.error "boom") 3 =
      (PyOutcome.raised "boom", 3, 2) := by
  rfl

/-- All-failing attempts drive the loop to the re-raise on its last
iteration. -/
lemma retryFrom_all_fail (att : Nat → Except String (List Char))
    (e : Nat → String) (maxR : Nat) (hatt : ∀ i, att i = Except.error (e i)) :
    ∀ r i, i + r = maxR → 0 < r →
      retryFrom att maxR i r = (PyOutcome.raised (e (maxR - 1)), r, r - 1) := by
  intro r
  induction r with
  | zero => intro i _ h0; exact absurd h0 (by omega)
  | succ s ih =>
    intro i hsum _
    unfold retryFrom
    rw [hatt i]
    dsimp only
    by_cases hs : 0 < s
    · have hlt : i < maxR - 1 := by omega
      rw [if_pos hlt, ih (i + 1) (by omega) hs]
      dsimp only
      simp only [Prod.mk.injEq, true_and]
      omega
    · have hi : i = maxR - 1 := by omega
      have hnlt : ¬ i < maxR - 1 := by omega
      rw [if_neg hnlt, hi]
      simp only [Prod.mk.injEq, true_and]
      omega

/-- C4, amended.  When every attempt of an item fails transiently,
`get_response_async` performs exactly `max_retries` attempts in total
(i.e. `max_retries - 1` retries) with a 10-second sleep between
consecutive attempts, and after the last attempt it *raises* the last
exception; its caller `process_article` catches that exception and
returns `None`, so the item's failure still does not abort the batch. -/
theorem c4_retry_amended :
    ∀ (att : Nat → Except String (List Char)) (e : Nat → String) (maxR : Nat),
      0 < maxR → (∀ i, att i = Except.error (e i)) →
      get_response_async att maxR =
        (PyOutcome.raised (e (maxR - 1)), maxR, maxR - 1) ∧
      process_article att maxR = none := by
  intro att e maxR hpos hatt
  have h := retryFrom_all_fail att e maxR hatt maxR 0 (by omega) hpos
  refine ⟨h, ?_⟩
  unfold process_article
  rw [show (get_response_async att maxR).1 = PyOutcome.raised (e (maxR - 1)) by
    rw [get_response_async, h]]

/-- Witness for C4's amended theorem at a concrete failing batch item. -/
theorem c4_witness :
    get_response_async (fun _ => Except.error "x") 2 =
      (PyOutcome.raised "x", 2, 1) ∧
    process_article (fun _ => Except.error "x") 2 = none :=
  c4_retry_amended (fun _ => Except.error "x") (fun _ => "x") 2 (by decide)
    (fun _ => rfl)

/-- The record exercising C7: a model answer outside the closed answer set
that equals the (equally indeterminate) ground-truth field. -/
def c7_rec : EvalRecord :=
  { doi := Json.str "", question := Json.str "q"
  , model_answer := Json.str "Maybe", model_eq := Json.str ""
  , model_disc := Json.str "", model_notes := Json.str ""
  , gt_answer := Json.str "Maybe", gt_eq := Json.str ""
  , gt_disc := Json.str "" }

/-- C7, counterexample.  The summary loop of `evaluate_openrouter.main`
counts a record whose answers are *not* determinate (both `"Maybe"`) in
both numerator and denominator — `(correct, total) = (1, 1)` — whereas
the claim's determinate-only statistic over the same record is `(0, 0)`:
the denominator is not "exactly the determinate comparisons". -/
theorem c7_accuracy_counterexample :
    accuracy_counts [c7_rec] = (1, 1) ∧
    spec_determinate_counts [c7_rec] = (0, 0) := by
  constructor <;> rfl

/-- Unrolling the summary loop with an arbitrary accumulator. -/
lemma accuracy_foldl (outs : List EvalRecord) :
    ∀ c t : Nat,
      outs.foldl accuracy_step (c, t) =
        (c + (outs.filter (fun r =>
            !(r.model_answer == Json.str "ERROR")
              && (r.model_answer == r.gt_answer))).length,
         t + (outs.filter (fun r =>
            !(r.model_answer == Json.str "ERROR"))).length) := by
  induction outs with
  | nil => intro c t; simp
  | cons r rest ih =>
    intro c t
    rw [List.foldl_cons]
    by_cases he : (r.model_answer == Json.str "ERROR") = true
    · rw [show accuracy_step (c, t) r = (c, t) by simp [accuracy_step, he]]
      simp [List.filter_cons, he, ih]
    · rw [Bool.not_eq_true] at he
      by_cases hq : (r.model_answer == r.gt_answer) = true
      · rw [show accuracy_step (c, t) r = (c + 1, t + 1) by
          simp [accuracy_step, he, hq]]
        rw [ih]
        simp [List.filter_cons, he, hq]
        omega
      · rw [Bool.not_eq_true] at hq
        rw [show accuracy_step (c, t) r = (c, t + 1) by
          simp [accuracy_step, he, hq]]
        rw [ih]
        simp [List.filter_cons, he, hq]
        omega

/-- `analyze_errors`' loop advances `total` on every row. -/
lemma analyze_step_snd (ct : Nat × Nat) (row : List (String × Json)) :
    (analyze_step ct row).2 = ct.2 + 1 := by
  unfold analyze_step
  cases normalizeField (getD row "ground_truth_answer" Json.null) <;>
    cases normalizeField (getD row "model_answer" Json.null) <;> simp

/-- Unrolling the `analyze_errors` loop's `total`. -/
lemma analyze_foldl_snd (rows : List (List (String × Json))) :
    ∀ ct : Nat × Nat, (rows.foldl analyze_step ct).2 = ct.2 + rows.length := by
  induction rows with
  | nil => intro ct; simp
  | cons row rest ih =>
    intro ct
    rw [List.foldl_cons, ih, analyze_step_snd]
    simp
    omega

/-- C7, amended.  The reported accuracy's denominator is the number of
records whose `model_answer` differs from `"ERROR"` — whether or not
either side is a determinate Yes/No/No Evidence — and its numerator
counts equality among exactly those records; in `analyze_errors.py` the
denominator of `accuracy_answer` is the count of *all* parsed rows, with
only the numerator requiring both sides determinate. -/
theorem c7_accuracy_amended :
    (∀ outs : List EvalRecord,
      accuracy_counts outs =
        ((outs.filter (fun r =>
            !(r.model_answer == Json.str "ERROR")
              && (r.model_answer == r.gt_answer))).length,
         (outs.filter (fun r =>
            !(r.model_answer == Json.str "ERROR"))).length)) ∧
    (∀ rows : List (List (String × Json)),
      (analyze_accuracy rows).2 = rows.length) := by
  constructor
  · intro outs
    rw [accuracy_counts, accuracy_foldl]
    simp
  · intro rows
    rw [analyze_accuracy, analyze_foldl_snd]
    simp

/-- The record produced for C2's counterexample input: the out-of-set
answer string is stored verbatim. -/
def c2_expected : EvalRecord :=
  { doi := Json.str "", question := Json.str "q"
  , model_answer := Json.str "Maybe", model_eq := Json.str ""
  , model_disc := Json.str "", model_notes := Json.str ""
  , gt_answer := Json.str "Yes", gt_eq := Json.str ""
  , gt_disc := Json.str "" }

/-- C2, counterexample.  A parsed response whose `answer` is `"Maybe"` —
outside the closed set — is written to the record verbatim by
`evaluate_one`, not replaced by the `ERROR` sentinel: no closed-set
validation exists in the normalizer. -/
theorem c2_validation_counterexample :
    evaluate_one (Json.obj [("question", Json.str "q"), ("answer", Json.str "Yes")])
        (Except.ok "\x7b\"answer\": \"Maybe\"\x7d".data) =
      Except.ok c2_expected ∧
    (c2_expected.model_answer == Json.str "ERROR") = false ∧
    determinate c2_expected.model_answer = false := by
  refine ⟨?_, rfl, rfl⟩
  rfl

/-- C2, amended.  The normalizer performs no validation of the `answer`
field: whenever the raw text parses as a JSON object containing an
`answer` key, that value — whatever string it is — is passed through
verbatim into the record's `model_answer`; the `ERROR` sentinel arises
only from exceptions (request failure or whole-text JSON parse failure),
never from an out-of-set answer. -/
theorem c2_passthrough_amended :
    ∀ (ikvs kvs : List (String × Json)) (qj a : Json) (content : List Char),
      objLookup ikvs "question" = some qj →
      jsonLoads content = some (Json.obj kvs) →
      objLookup kvs "answer" = some a →
      evaluate_one (Json.obj ikvs) (Except.ok content) =
        Except.ok (recordOf ikvs qj kvs) ∧
      (recordOf ikvs qj kvs).model_answer = a := by
  intro ikvs kvs qj a content hq hl ha
  constructor
  · unfold evaluate_one respOf
    dsimp only
    rw [hq, hl]
  · simp [recordOf, getD, ha]

/-- Witness for C2's amended theorem at a concrete pass-through input. -/
theorem c2_witness :
    evaluate_one (Json.obj [("question", Json.str "q2")])
        (Except.ok "\x7b\"answer\": \"No Way\"\x7d".data) =
      Except.ok (recordOf [("question", Json.str "q2")] (Json.str "q2")
        [("answer", Json.str "No Way")]) ∧
    (recordOf [("question", Json.str "q2")] (Json.str "q2")
        [("answer", Json.str "No Way")]).model_answer = Json.str "No Way" :=
  c2_passthrough_amended [("question", Json.str "q2")]
    [("answer", Json.str "No Way")] (Json.str "q2") (Json.str "No Way")
    "\x7b\"answer\": \"No Way\"\x7d".data rfl rfl rfl

/-- The record produced for C3's counterexample input: every field the
parsed object lacks defaults to the empty string. -/
def c3_expected : EvalRecord :=
  { doi := Json.str "", question := Json.str "q"
  , model_answer := Json.str "", model_eq := Json.str ""
  , model_disc := Json.str "", model_notes := Json.str ""
  , gt_answer := Json.str "", gt_eq := Json.str ""
  , gt_disc := Json.str "" }

/-- The prediction record for C3's batch-side counterexample: fields
absent from the parsed content default to `None`, not
`Missing`/`Error`. -/
def c3_pred_expected : Pred :=
  { key := "x", custom_id := Json.str "qid:x", status := Json.str "200"
  , error := Json.null, model_answer := Json.null, model_eq := Json.null
  , model_disc := Json.null, model_notes := Json.null }

/-- C3, counterexample.  A response parsing to the empty JSON object
yields a record whose fields are all the *empty string* in
`evaluate_one` (`resp.get(key, "")`) and all `None` in
`batch_parse_outputs` (`data.get(key)`): absent fields do not map to
`Missing`/`Error`, and the record is populated with out-of-enum
defaults. -/
theorem c3_missing_fields_counterexample :
    evaluate_one (Json.obj [("question", Json.str "q")])
        (Except.ok "\x7b\x7d".data) = Except.ok c3_expected ∧
    (c3_expected.model_answer == Json.str "ERROR") = false ∧
    (c3_expected.model_eq == Json.str "Missing") = false ∧
    (c3_expected.model_disc == Json.str "Missing") = false ∧
    predOfLine [("custom_id", Json.str "qid:x"),
        ("response", Json.obj [("status_code", Json.num 200),
          ("body", Json.obj [("choices", Json.arr [Json.obj [("message",
            Json.obj [("content", Json.str "\x7b\x7d")])]])])])] =
      Except.ok c3_pred_expected ∧
    c3_pred_expected.model_answer = Json.null ∧
    c3_pred_expected.model_eq = Json.null := by
  exact ⟨rfl, rfl, rfl, rfl, rfl, rfl, rfl⟩

/-- C3, amended.  For a response parsing to a JSON object, fields absent
from it default to the empty string in `evaluate_one`'s record (via
`resp.get(key, "")`); only a whole-response parse failure (or raised
request) produces the `ERROR` sentinel, and then in *all* fields.  (In
`batch_parse_outputs.py`, absent fields default to `None` instead.) -/
theorem c3_defaults_amended :
    ∀ (ikvs kvs : List (String × Json)) (qj : Json) (content : List Char),
      objLookup ikvs "question" = some qj →
      jsonLoads content = some (Json.obj kvs) →
      objLookup kvs "answer" = none →
      objLookup kvs "evidence-quality" = none →
      objLookup kvs "discrepancy" = none →
      evaluate_one (Json.obj ikvs) (Except.ok content) =
        Except.ok (recordOf ikvs qj kvs) ∧
      (recordOf ikvs qj kvs).model_answer = Json.str "" ∧
      (recordOf ikvs qj kvs).model_eq = Json.str "" ∧
      (recordOf ikvs qj kvs).model_disc = Json.str "" := by
  intro ikvs kvs qj content hq hl ha he hd
  refine ⟨?_, ?_, ?_, ?_⟩
  · unfold evaluate_one respOf
    dsimp only
    rw [hq, hl]
  · simp [recordOf, getD, ha]
  · simp [recordOf, getD, he]
  · simp [recordOf, getD, hd]

/-- Witness for C3's amended theorem at a concrete input with a present
`notes` field and the three schema fields absent. -/
theorem c3_witness :
    evaluate_one (Json.obj [("question", Json.str "q3")])
        (Except.ok "\x7b\"notes\": \"n\"\x7d".data) =
      Except.ok (recordOf [("question", Json.str "q3")] (Json.str "q3")
        [("notes", Json.str "n")]) ∧
    (recordOf [("question", Json.str "q3")] (Json.str "q3")
        [("notes", Json.str "n")]).model_answer = Json.str "" ∧
    (recordOf [("question", Json.str "q3")] (Json.str "q3")
        [("notes", Json.str "n")]).model_eq = Json.str "" ∧
    (recordOf [("question", Json.str "q3")] (Json.str "q3")
        [("notes", Json.str "n")]).model_disc = Json.str "" :=
  c3_defaults_amended [("question", Json.str "q3")] [("notes", Json.str "n")]
    (Json.str "q3") "\x7b\"notes\": \"n\"\x7d".data rfl rfl rfl rfl rfl

/-- C8, counterexample.  Raw text `"[1, 2]"` *does* parse as JSON — to a
list — so the `try` block succeeds, and the subsequent
`resp.get("answer", "")` outside the `try` raises `AttributeError`, which
escapes `evaluate_one` into the batch loop: the normalizer does not
terminate without raising for every raw response text. -/
theorem c8_nonobject_raises_counterexample :
    evaluate_one_or (Json.obj [("question", Json.str "q")])
        (Except.ok "[1, 2]".data) =
      Except.error PyErr.attributeError := by
  rfl

/-- C8, amended.  For raw text that, after fence extraction, fails to
parse as JSON, `evaluate_one` returns the `ERROR`-sentinel record with no
exception; raw text whose extracted fenced group parses to a JSON object
yields that embedded object's fields.  (Raw text parsing to a *non-object*
JSON value, however, raises `AttributeError` out of the normalizer, per
the counterexample.) -/
theorem c8_normalizer_amended :
    ∀ (ikvs : List (String × Json)) (qj : Json) (raw : List Char),
      objLookup ikvs "question" = some qj →
      (jsonLoads (strip_fences raw) = none →
        evaluate_one_or (Json.obj ikvs) (Except.ok raw) =
          Except.ok (recordOf ikvs qj (errKvs qj "json_decode_error")) ∧
        (recordOf ikvs qj (errKvs qj "json_decode_error")).model_answer =
          Json.str "ERROR") ∧
      (∀ kvs, jsonLoads (strip_fences raw) = some (Json.obj kvs) →
        evaluate_one_or (Json.obj ikvs) (Except.ok raw) =
          Except.ok (recordOf ikvs qj kvs)) ∧
      (∀ g kvs, containsSub "```json".data raw = true →
        reSearchFence "```json".data raw = some g →
        jsonLoads g = some (Json.obj kvs) →
        evaluate_one_or (Json.obj ikvs) (Except.ok raw) =
          Except.ok (recordOf ikvs qj kvs)) := by
  intro ikvs qj raw hq
  have hobj : ∀ kvs, jsonLoads (strip_fences raw) = some (Json.obj kvs) →
      evaluate_one_or (Json.obj ikvs) (Except.ok raw) =
        Except.ok (recordOf ikvs qj kvs) := by
    intro kvs hl
    unfold evaluate_one_or respOfOr
    dsimp only
    rw [hq, hl]
  refine ⟨?_, hobj, ?_⟩
  · intro hl
    constructor
    · unfold evaluate_one_or respOfOr
      dsimp only
      rw [hq, hl]
    · simp [recordOf, getD, errKvs, objLookup]
  · intro g kvs hc hr hl
    have hs : strip_fences raw = g := by
      unfold strip_fences
      rw [hc]
      simp [hr]
    exact hobj kvs (by rw [hs]; exact hl)

/-- Witness for C8's amended theorem: unparseable prose yields the
`ERROR` record, and a fenced JSON object is extracted and used. -/
theorem c8_witness :
    evaluate_one_or (Json.obj [("question", Json.str "q8")])
        (Except.ok "not json at all".data) =
      Except.ok (recordOf [("question", Json.str "q8")] (Json.str "q8")
        (errKvs (Json.str "q8") "json_decode_error")) ∧
    evaluate_one_or (Json.obj [("question", Json.str "q8")])
        (Except.ok "```json\n\x7b\"answer\": \"Yes\"\x7d\n```".data) =
      Except.ok (recordOf [("question", Json.str "q8")] (Json.str "q8")
        [("answer", Json.str "Yes")]) :=
  ⟨((c8_normalizer_amended [("question", Json.str "q8")] (Json.str "q8")
      "not json at all".data rfl).1 rfl).1,
   (c8_normalizer_amended [("question", Json.str "q8")] (Json.str "q8")
      "```json\n\x7b\"answer\": \"Yes\"\x7d\n```".data rfl).2.2
      "\x7b\"answer\": \"Yes\"\x7d".data [("answer", Json.str "Yes")]
      rfl rfl rfl⟩

/-- A batch result line (chat-completions shape) whose key matches no
ground-truth entry. -/
def c1_line : List (String × Json) :=
  [("custom_id", Json.str "qid:x"),
   ("response", Json.obj [("status_code", Json.num 200),
     ("body", Json.obj [("choices", Json.arr [Json.obj [("message",
       Json.obj [("content",
         Json.str "\x7b\"answer\": \"Yes\"\x7d")])]])])])]

/-- The prediction record `batch_parse_outputs.py` writes for
`c1_line`. -/
def c1_pred : Pred :=
  { key := "x", custom_id := Json.str "qid:x", status := Json.str "200"
  , error := Json.null, model_answer := Json.str "Yes"
  , model_eq := Json.null, model_disc := Json.null
  , model_notes := Json.null }

/-- C1, counterexample.  With empty ground-truth maps, a 1-line batch
result produces one prediction record but *zero* merged records: the item
whose ground truth cannot be located by id or DOI is dropped from the
merged output (`if gt:` on line 127), not emitted with
`ground_truth = None` — the merge step does not preserve cardinality. -/
theorem c1_merge_drop_counterexample :
    batch_parse_outputs [] [] [c1_line] = Except.ok ([c1_pred], []) := by
  rfl

/-- C1, amended.  The batch parser emits exactly one *prediction* record
per parseable result line, but at most that many *merged* records: a
merged record exists for a line exactly when its key locates a truthy
ground-truth entry by id or by DOI, and a line whose ground truth cannot
be located is omitted from the merged output entirely (rather than
yielding a record with `ground_truth = None`). -/
theorem c1_cardinality_amended :
    (∀ (by_id by_doi : List (String × List (String × Json)))
      (lines : List (List (String × Json)))
      (ps : List Pred) (ms : List Merged),
      batch_parse_outputs by_id by_doi lines = Except.ok (ps, ms) →
      ps.length = lines.length ∧ ms.length ≤ lines.length) ∧
    (∀ (by_id by_doi : List (String × List (String × Json))) (p : Pred),
      mergeFor by_id by_doi p = none ↔
        gtFor by_id by_doi p.key = none ∨
          gtFor by_id by_doi p.key = some []) := by
  constructor
  · intro by_id by_doi lines
    induction lines with
    | nil =>
      intro ps ms h
      rw [batch_parse_outputs] at h
      injection h with h'
      rw [show ps = ([] : List Pred) from congrArg Prod.fst h'.symm,
        show ms = ([] : List Merged) from congrArg Prod.snd h'.symm]
      exact ⟨rfl, Nat.le_refl 0⟩
    | cons o rest ih =>
      intro ps ms h
      rw [batch_parse_outputs] at h
      cases h1 : predOfLine o with
      | error e => rw [h1] at h; exact absurd h (by simp)
      | ok p =>
        rw [h1] at h
        cases h2 : batch_parse_outputs by_id by_doi rest with
        | error e => rw [h2] at h; exact absurd h (by simp)
        | ok pr =>
          rw [h2] at h
          obtain ⟨ps', ms'⟩ := pr
          have hrest := ih ps' ms' h2
          injection h with h'
          cases hm : mergeFor by_id by_doi p with
          | some m =>
            rw [hm] at h'
            rw [show ps = p :: ps' from congrArg Prod.fst h'.symm,
              show ms = m :: ms' from congrArg Prod.snd h'.symm]
            exact ⟨by simp [hrest.1], by simpa using hrest.2⟩
          | none =>
            rw [hm] at h'
            rw [show ps = p :: ps' from congrArg Prod.fst h'.symm,
              show ms = ms' from congrArg Prod.snd h'.symm]
            exact ⟨by simp [hrest.1], Nat.le_succ_of_le hrest.2⟩
  · intro by_id by_doi p
    unfold mergeFor
    cases hg : gtFor by_id by_doi p.key with
    | none => simp
    | some gkvs =>
      cases gkvs with
      | nil => simp
      | cons g gs => simp [List.isEmpty]

/-- Witness for C1's amended theorem at the empty batch. -/
theorem c1_witness :
    (([] : List Pred).length = ([] : List (List (String × Json))).length) ∧
    (([] : List Merged).length ≤ ([] : List (List (String × Json))).length) :=
  c1_cardinality_amended.1 [] [] [] [] [] rfl

/-- The number of in-flight requests never changes by marking a pending
task in-flight except to grow by one. -/
lemma cntInFlight_set_inFlight :
    ∀ (ts : List Phase) (i : Nat), ts.get? i = some Phase.pending →
      cntInFlight (setPhase ts i Phase.inFlight) = cntInFlight ts + 1 := by
  intro ts
  induction ts with
  | nil => intro i h; simp at h
  | cons p ps ih =>
    intro i h
    cases i with
    | zero =>
      simp only [List.get?] at h
      injection h with h
      subst h
      simp [setPhase, cntInFlight]
      omega
    | succ n =>
      simp only [List.get?] at h
      simp only [setPhase, cntInFlight, ih n h]
      omega

/-- Marking an in-flight task done decrements the in-flight count. -/
lemma cntInFlight_set_done :
    ∀ (ts : List Phase) (i : Nat), ts.get? i = some Phase.inFlight →
      cntInFlight (setPhase ts i Phase.done) + 1 = cntInFlight ts := by
  intro ts
  induction ts with
  | nil => intro i h; simp at h
  | cons p ps ih =>
    intro i h
    cases i with
    | zero =>
      simp only [List.get?] at h
      injection h with h
      subst h
      simp [setPhase, cntInFlight]
      omega
    | succ n =>
      simp only [List.get?] at h
      simp only [setPhase, cntInFlight]
      rw [← ih n h]
      omega

/-- Initially no request is in flight. -/
lemma cntInFlight_replicate_pending (n : Nat) :
    cntInFlight (List.replicate n Phase.pending) = 0 := by
  induction n with
  | zero => rfl
  | succ m ih => simp [List.replicate, cntInFlight, ih]

/-- Every scheduler step preserves the sum of the semaphore counter and
the in-flight count. -/
lemma exec_step_preserves (N : Nat) (a b : ExecState) (hstep : ExecStep a b)
    (ih : a.sem + cntInFlight a.tasks = N) :
    b.sem + cntInFlight b.tasks = N := by
  cases hstep with
  | acquire i hp hs =>
    have hc := cntInFlight_set_inFlight a.tasks i hp
    dsimp only
    omega
  | release i hp =>
    have hc := cntInFlight_set_done a.tasks i hp
    dsimp only
    omega

/-- The executor invariant: the semaphore counter plus the number of
in-flight requests equals the configured limit. -/
lemma exec_invariant (N n : Nat) (s : ExecState)
    (h : ExecReachable N n s) : s.sem + cntInFlight s.tasks = N := by
  induction h with
  | refl => simp [initExec, cntInFlight_replicate_pending]
  | tail _ hstep ih => exact exec_step_preserves N _ _ hstep ih

/-- C5.  In every state the batch can reach, at most `N` provider
requests are simultaneously in flight: each request runs only while
holding one of the `N` slots of the shared semaphore
(`async with semaphore` around the `client...create` call), and the
semaphore never admits more than `N` holders. -/
theorem c5_concurrency_bounded :
    ∀ (N n : Nat) (s : ExecState), ExecReachable N n s →
      cntInFlight s.tasks ≤ N := by
  intro N n s h
  have := exec_invariant N n s h
  omega

/-- Witness for C5 at a genuinely reachable state: one of two tasks has
acquired the semaphore (limit 2) and is in flight. -/
theorem c5_witness :
    ExecReachable 2 2 ⟨1, [Phase.inFlight, Phase.pending]⟩ ∧
    cntInFlight [Phase.inFlight, Phase.pending] ≤ 2 := by
  have hstep : ExecStep (initExec 2 2) ⟨1, [Phase.inFlight, Phase.pending]⟩ :=
    ExecStep.acquire (initExec 2 2) 0 rfl (by decide)
  have hreach : ExecReachable 2 2 ⟨1, [Phase.inFlight, Phase.pending]⟩ :=
    Relation.ReflTransGen.single hstep
  exact ⟨hreach, c5_concurrency_bounded 2 2 _ hreach⟩

end Medal
